import Mathlib

/-!
Verification of the spam-detection engine (`lib/detector.go`) of tg-spam.

The Go code is shallowly embedded: `map[string]int` token-frequency maps
become association lists with distinct keys, `float64` becomes `ℝ`,
Go `int` becomes `ℤ`, and the injected effectful collaborators (the HTTP
client of the CAS reputation check, the openAI checker, the sample
updaters) become explicit function-valued fields.  The emoji helpers
(`cleanEmoji`, `countEmoji`) and the naive-Bayes classifier live in files
of the repository that are not part of the sources given here; the emoji
helpers are kept fully abstract (an `Ext` record of oracles) and the
classifier is modelled from the specification, see `classifier` below.
-/

namespace TgSpam

/-- Result of one spam check, mirroring `CheckResult` of `detector.go`. -/
structure CheckResult where
  Name : String
  Spam : Bool
  Details : String
deriving DecidableEq, Repr

/-- Result of loading samples, mirroring `LoadResult` of `detector.go`. -/
structure LoadResult where
  ExcludedTokens : Int
  SpamSamples : Int
  HamSamples : Int
  StopWords : Int
deriving DecidableEq, Repr

/-- A Go `map[string]int` token-frequency map, as an association list
with (by construction) distinct keys. -/
abbrev TokenFreq := List (String × Int)

/-- Reading a Go map: the value stored at `key`, `0` when absent. -/
def mapGet (m : TokenFreq) (key : String) : Int :=
  match m with
  | [] => 0
  | (k, v) :: t => if k = key then v else mapGet t key

/-- The keys of a token-frequency map, in storage order. -/
def keysList (m : TokenFreq) : List String :=
  m.map Prod.fst

/-- Well-formedness of the association-list image of a Go map:
no key occurs twice. -/
def WFMap (m : TokenFreq) : Prop :=
  (keysList m).Nodup

instance (m : TokenFreq) : Decidable (WFMap m) := by
  unfold WFMap
  infer_instance

/-- `strings.ToLower`, restricted (as everywhere in this model) to the
ASCII case mapping of `Char.toLower`. -/
def toLowerS (s : String) : String :=
  String.mk (s.toList.map Char.toLower)

/-- `strings.Trim`: drop from both ends every character of `cut`. -/
def trimChars (s cut : String) : String :=
  let l := s.toList.dropWhile (fun c => cut.toList.contains c)
  String.mk ((l.reverse.dropWhile (fun c => cut.toList.contains c)).reverse)

/-- `strings.Contains`: substring containment test. -/
def strContains (s sub : String) : Bool :=
  (List.range (s.toList.length + 1)).any
    (fun i => sub.toList.isPrefixOf (s.toList.drop i))

/-- Splitting a character list at every separator satisfying `p`
(the pieces keep their order; a separator at either end or two adjacent
separators contribute empty pieces, as Go's `strings.Split` does). -/
def splitOnPred (p : Char → Bool) : List Char → List (List Char)
  | [] => [[]]
  | c :: rest =>
    if p c then [] :: splitOnPred p rest
    else
      match splitOnPred p rest with
      | [] => [[c]]
      | g :: gs => (c :: g) :: gs

/-- `strings.Fields`: split on whitespace, dropping empty pieces. -/
def fields (s : String) : List String :=
  ((splitOnPred Char.isWhitespace s.toList).map String.mk).filter (fun x => x ≠ "")

/-- `strings.TrimSuffix(s, ".")`: drop one trailing period if present. -/
def trimSuffixDot (s : String) : String :=
  match s.toList.getLast? with
  | some '.' => String.mk s.toList.dropLast
  | _ => s

/-- `strconv.ParseInt(s, 10, 64)` succeeds: an optional sign followed by
at least one decimal digit, with the value within the signed 64-bit range. -/
def isInt64String (s : String) : Bool :=
  let signed :=
    match s.toList with
    | '-' :: rest => (true, rest)
    | '+' :: rest => (false, rest)
    | cs => (false, cs)
  if signed.2 = [] then false
  else if !(signed.2.all Char.isDigit) then false
  else
    let v := signed.2.foldl (fun acc c => acc * 10 + (c.toNat - 48)) 0
    if signed.1 then v ≤ 2 ^ 63 else v ≤ 2 ^ 63 - 1

/-- The external emoji helpers of the repository (`cleanEmoji`,
`countEmoji` of `emoji.go`, a file not among the given sources); they are
kept abstract, every theorem below holds for an arbitrary choice. -/
structure Ext where
  cleanEmoji : String → String
  countEmoji : String → Int

/-- A classifier training document, mirroring `document` of the
repository (`spamClass` is the class label, `tokens` the distinct
tokens). -/
structure document where
  spamClass : String
  tokens : List String

/-- Modelled from the spec: the naive-Bayes classifier state
(`classifier.go` is not among the given sources).  §3 ClassifierState:
`docsPerClass`, `tokenCount`, `totalTokens`, `totalDocs` (named
`nAllDocument`, the field name `detector.go` reads), `vocabulary`. -/
structure classifier where
  nAllDocument : Int
  docsPerClass : String → Int
  tokenCount : String → String → Int
  totalTokens : String → Int
  vocabulary : List String

/-- Modelled from the spec: a freshly constructed classifier has every
count zero and an empty vocabulary. -/
def newClassifier : classifier :=
  { nAllDocument := 0
    docsPerClass := fun _ => 0
    tokenCount := fun _ _ => 0
    totalTokens := fun _ => 0
    vocabulary := [] }

/-- Modelled from the spec: `classifier.reset()` zeroes every counter and
clears the vocabulary. -/
def classifier.reset (_c : classifier) : classifier :=
  newClassifier

/-- Modelled from the spec (§4.B `learn`): one document increments
`docsPerClass` and, for each distinct token, `tokenCount[class][t]` and
`totalTokens[class]`; new tokens enter the vocabulary; `nAllDocument`
is incremented. -/
def classifier.learnSingle (c : classifier) (doc : document) : classifier :=
  let toks := doc.tokens.dedup
  { nAllDocument := c.nAllDocument + 1
    docsPerClass :=
      Function.update c.docsPerClass doc.spamClass (c.docsPerClass doc.spamClass + 1)
    tokenCount := fun cl t =>
      if cl = doc.spamClass ∧ t ∈ toks then c.tokenCount cl t + 1 else c.tokenCount cl t
    totalTokens := fun cl =>
      if cl = doc.spamClass then c.totalTokens cl + toks.length else c.totalTokens cl
    vocabulary := c.vocabulary ++ toks.filter (fun t => t ∉ c.vocabulary) }

/-- Modelled from the spec: `classifier.learn(docs…)` learns the
documents in order. -/
def classifier.learn (c : classifier) (docs : List document) : classifier :=
  docs.foldl classifier.learnSingle c

/-- Modelled from the spec (§4.B `classify`): per-class log scores with
additive smoothing, softmax posteriors in percent, `certain` iff the two
scores differ; the empty classifier answers `("", 0, false)`. -/
noncomputable def classifier.classify (c : classifier) (tokens : List String) :
    String × ℝ × Bool :=
  if c.nAllDocument = 0 then ("", 0, false)
  else
    let score := fun cl =>
      Real.log ((c.docsPerClass cl : ℝ) / (c.nAllDocument : ℝ)) +
        (tokens.map (fun t =>
          Real.log (((c.tokenCount cl t : ℝ) + 1) /
            ((c.totalTokens cl : ℝ) + (c.vocabulary.length : ℝ))))).sum
    let ls := score "spam"
    let lh := score "ham"
    let cls := if ls > lh then "spam" else "ham"
    let prob := 100 * Real.exp (max ls lh) / (Real.exp ls + Real.exp lh)
    (cls, prob, if ls = lh then false else true)

/-- Outcome of the CAS reputation HTTP exchange, abstracting
`http.NewRequest`, `HTTPClient.Do` and the JSON decoding of the body:
each failure point of `isCasSpam`, or a decoded `{ok, description}`. -/
inductive CasOutcome where
  | newRequestError (e : String)
  | doError (e : String)
  | decodeError (e : String)
  | ok (okFlag : Bool) (description : String)

/-- One sample updater (`SampleUpdater` interface): `append msg` is
`none` on success and `some e` when `Append` returns the error `e`. -/
structure SampleUpdater where
  append : String → Option String

/-- A reader handed to the load functions: the text it yields before
either end-of-stream or a read error (`readErr`); `tokenChan` logs read
errors and never propagates them. -/
structure Reader where
  content : String
  readErr : Option String

/-- The detector state, mirroring `Detector` of `detector.go` with its
embedded `Config` flattened in (field names kept).  `approvedUsers` is
the Go map read with default `0`; `casClient` stands for the injected
`HTTPClient` (plus response decoding); `openaiChecker` for the optional
`openAIChecker.check`. -/
structure Detector where
  SimilarityThreshold : ℝ
  MinMsgLen : Int
  MaxAllowedEmoji : Int
  CasAPI : String
  FirstMessageOnly : Bool
  FirstMessagesCount : Int
  MinSpamProbability : ℝ
  OpenAIVeto : Bool
  casClient : String → CasOutcome
  classifier : classifier
  openaiChecker : Option (String → Bool × CheckResult)
  tokenizedSpam : List TokenFreq
  approvedUsers : String → Int
  stopWords : List String
  excludedTokens : List String
  spamSamplesUpd : Option SampleUpdater
  hamSamplesUpd : Option SampleUpdater

/-- `Detector.tokenize`: split on whitespace, drop excluded tokens
(case-insensitive equality), strip emoji, trim punctuation, lowercase,
drop pieces shorter than three code points, count the rest. -/
def bump (m : TokenFreq) (k : String) : TokenFreq :=
  match m with
  | [] => [(k, 1)]
  | (k', v) :: t => if k' = k then (k', v + 1) :: t else (k', v) :: bump t k

/-- `Detector.tokenize` of `detector.go`. -/
def tokenize (ext : Ext) (excludedTokens : List String) (inp : String) : TokenFreq :=
  (fields inp).foldl
    (fun acc token =>
      if excludedTokens.any (fun w => toLowerS token == toLowerS w) then acc
      else
        let t1 := ext.cleanEmoji token
        let t2 := trimChars t1 ".,!?-:;()#"
        let t3 := toLowerS t2
        if t3.length < 3 then acc else bump acc (toLowerS t3))
    []

/-- `bufio.Scanner` line splitting: lines without their terminators, a
final empty segment (text ending in a newline, or empty text) yielding
no line, and a trailing carriage return stripped per line. -/
def goLines (s : String) : List String :=
  let parts := (splitOnPred (fun c => c = '\n') s.toList).map String.mk
  let parts := if parts.getLast? = some "" then parts.dropLast else parts
  parts.map (fun l =>
    match l.toList.getLast? with
    | some '\r' => String.mk l.toList.dropLast
    | _ => l)

/-- `strings.HasPrefix(s, c)` for a one-character prefix. -/
def startsWithChar (s : String) (c : Char) : Bool :=
  match s.toList with
  | c' :: _ => c' = c
  | [] => false

/-- One line of `Detector.tokenChan`: a quoted comma-separated list is
split and each piece trimmed of `" \n\r\t"` and space; otherwise the
whole trimmed line is one token; empty results are dropped. -/
def tokenChanLine (line : String) : List String :=
  if strContains line "," && startsWithChar line '"' then
    (((splitOnPred (fun c => c = ',') line.toList).map String.mk).map
      (fun t => trimChars t " \"\n\r\t")).filter (fun t => t ≠ "")
  else
    let c := trimChars line " \n\r\t"
    if c = "" then [] else [c]

/-- `Detector.tokenChan`: the token stream of a list of readers; read
errors are logged and swallowed, so only the delivered content counts. -/
def tokenChan (readers : List Reader) : List String :=
  readers.flatMap (fun r => (goLines r.content).flatMap tokenChanLine)

/-- `Detector.isStopWord`: first loaded stop word contained in the
lowercased, emoji-stripped message, if any. -/
def isStopWord (ext : Ext) (d : Detector) (msg : String) : CheckResult :=
  match d.stopWords.find?
      (fun word => strContains (ext.cleanEmoji (toLowerS msg)) (toLowerS word)) with
  | some word => { Name := "stopword", Spam := true, Details := word }
  | none => { Name := "stopword", Spam := false, Details := "not found" }

/-- `Detector.isManyEmojis`: spam iff the emoji count exceeds
`MaxAllowedEmoji`. -/
def isManyEmojis (ext : Ext) (d : Detector) (msg : String) : CheckResult :=
  let count := ext.countEmoji msg
  { Name := "emoji", Spam := decide (count > d.MaxAllowedEmoji)
    Details := toString count ++ "/" ++ toString d.MaxAllowedEmoji }

/-- The squared Euclidean norm of a token-frequency map
(`normA`/`normB` of `cosineSimilarity`). -/
def normSq (m : TokenFreq) : Int :=
  (m.map (fun p => p.2 * p.2)).sum

/-- The dot product of `cosineSimilarity`: iterate over `a`, reading the
matching frequency of `b` (missing keys read `0`). -/
def dotP (a b : TokenFreq) : Int :=
  (a.map (fun p => p.2 * mapGet b p.1)).sum

/-- `Detector.cosineSimilarity` of `detector.go` (with `float64`
modelled as `ℝ`). -/
noncomputable def cosineSimilarity (a b : TokenFreq) : ℝ :=
  if a.length = 0 ∨ b.length = 0 then 0
  else if normSq a = 0 ∨ normSq b = 0 then 0
  else (dotP a b : ℝ) / (Real.sqrt (normSq a : ℝ) * Real.sqrt (normSq b : ℝ))

/-- Go `%0.2f`: two decimals (the half-to-even tie behaviour of binary
float formatting is approximated by `round`). -/
noncomputable def fmt2 (x : ℝ) : String :=
  let n : ℤ := round (x * 100)
  let sign := if n < 0 then "-" else ""
  let m := n.natAbs
  sign ++ toString (m / 100) ++ "." ++ (if m % 100 < 10 then "0" else "") ++ toString (m % 100)

/-- The loop of `Detector.isSpamSimilarityHigh`: walk the stored spam
samples keeping the running maximum; stop with `true` at the first
similarity at or above the threshold. -/
noncomputable def simLoop : ℝ → TokenFreq → List TokenFreq → ℝ → Bool × ℝ
  | _, _, [], maxSim => (false, maxSim)
  | thr, q, s :: rest, maxSim =>
    if cosineSimilarity q s ≥ thr then
      (true, if cosineSimilarity q s > maxSim then cosineSimilarity q s else maxSim)
    else
      simLoop thr q rest
        (if cosineSimilarity q s > maxSim then cosineSimilarity q s else maxSim)

/-- `Detector.isSpamSimilarityHigh` of `detector.go`. -/
noncomputable def isSpamSimilarityHigh (ext : Ext) (d : Detector) (msg : String) :
    CheckResult :=
  { Name := "similarity"
    Spam := (simLoop d.SimilarityThreshold (tokenize ext d.excludedTokens msg)
      d.tokenizedSpam 0).1
    Details := fmt2 (simLoop d.SimilarityThreshold
        (tokenize ext d.excludedTokens msg) d.tokenizedSpam 0).2 ++
      "/" ++ fmt2 d.SimilarityThreshold }

/-- The request URL of the CAS check. -/
def casURL (d : Detector) (msgID : String) : String :=
  d.CasAPI ++ "/check?user_id=" ++ msgID

/-- `Detector.isCasSpam` of `detector.go` (the `%q` quoting of the
invalid id elides escaping). -/
def isCasSpam (d : Detector) (msgID : String) : CheckResult :=
  if !(isInt64String msgID) then
    { Name := "cas", Spam := false
      Details := "invalid user id \"" ++ msgID ++ "\"" }
  else
    match d.casClient (casURL d msgID) with
    | .newRequestError e =>
      { Name := "cas", Spam := false
        Details := "failed to make request " ++ casURL d msgID ++ ": " ++ e }
    | .doError e =>
      { Name := "cas", Spam := false
        Details := "ffailed to send request " ++ casURL d msgID ++ ": " ++ e }
    | .decodeError e =>
      { Name := "cas", Spam := false
        Details := "failed to parse response from " ++ casURL d msgID ++ ": " ++ e }
    | .ok okFlag description =>
      if okFlag then
        { Name := "cas", Spam := true
          Details := trimSuffixDot (toLowerS description) }
      else
        { Name := "cas", Spam := false
          Details :=
            if trimSuffixDot (toLowerS description) = "" then "not found"
            else trimSuffixDot (toLowerS description) }

/-- `Detector.isSpamClassified` of `detector.go`. -/
noncomputable def isSpamClassified (ext : Ext) (d : Detector) (msg : String) :
    CheckResult :=
  let tm := tokenize ext d.excludedTokens msg
  let tokens := tm.map Prod.fst
  let r := d.classifier.classify tokens
  let isSpam : Prop :=
    r.1 = "spam" ∧ r.2.2 = true ∧
      (d.MinSpamProbability = 0 ∨ r.2.1 ≥ d.MinSpamProbability)
  { Name := "classifier"
    Spam := if isSpam then true else false
    Details := "probability of " ++ r.1 ++ ": " ++ fmt2 r.2.1 ++ "%" }

/-- The `isSpamDetected` closure of `Detector.Check`: some accumulated
result is spam. -/
def isSpamDetected (cr : List CheckResult) : Bool :=
  cr.any (fun r => r.Spam)

/-- The fixed length-gate result of `Detector.Check`. -/
def lengthResult : CheckResult :=
  { Name := "message length", Spam := false, Details := "too short" }

/-- The fixed pre-approval result of `Detector.Check`. -/
def preApprovedResult : CheckResult :=
  { Name := "pre-approved", Spam := false, Details := "user already approved" }

/-- The stop-word contribution to the check pipeline (present iff stop
words are loaded). -/
def stopPart (ext : Ext) (d : Detector) (msg : String) : List CheckResult :=
  if d.stopWords.length > 0 then [isStopWord ext d msg] else []

/-- The emoji contribution to the check pipeline (present iff
`MaxAllowedEmoji ≥ 0`). -/
def emojiPart (ext : Ext) (d : Detector) (msg : String) : List CheckResult :=
  if d.MaxAllowedEmoji ≥ 0 then [isManyEmojis ext d msg] else []

/-- The similarity contribution to the check pipeline (present iff the
threshold is positive and spam samples are loaded). -/
noncomputable def simPart (ext : Ext) (d : Detector) (msg : String) : List CheckResult :=
  if d.SimilarityThreshold > 0 ∧ d.tokenizedSpam.length > 0 then
    [isSpamSimilarityHigh ext d msg]
  else []

/-- The classifier contribution to the check pipeline (present iff the
classifier has learned at least one document). -/
noncomputable def classPart (ext : Ext) (d : Detector) (msg : String) : List CheckResult :=
  if d.classifier.nAllDocument > 0 then [isSpamClassified ext d msg] else []

/-- The reputation contribution to the check pipeline (present iff a CAS
API URL is configured). -/
def casPart (d : Detector) (userID : String) : List CheckResult :=
  if d.CasAPI ≠ "" then [isCasSpam d userID] else []

/-- All results accumulated by `Detector.Check` when the length gate
does not fire, in pipeline order. -/
noncomputable def baseResults (ext : Ext) (d : Detector) (msg userID : String) :
    List CheckResult :=
  stopPart ext d msg ++ emojiPart ext d msg ++ simPart ext d msg ++
    classPart ext d msg ++ casPart d userID

/-- The openAI gate of `Detector.Check`: a checker is attached, the
first-message window is configured, and the accumulated verdict together
with `OpenAIVeto` selects consultation. -/
def llmGate (d : Detector) (spamDetected : Bool) : Prop :=
  (d.FirstMessageOnly = true ∨ d.FirstMessagesCount > 0) ∧
    ((spamDetected = false ∧ d.OpenAIVeto = false) ∨
      (spamDetected = true ∧ d.OpenAIVeto = true))

instance (d : Detector) (b : Bool) : Decidable (llmGate d b) := by
  unfold llmGate
  infer_instance

/-- The verdict and result list of `Detector.Check` after the openAI
step, for an invocation that got past the length gate: the accumulated
results and verdict, with the openAI checker consulted (and its verdict
adopted) exactly when one is attached and `llmGate` holds. -/
noncomputable def checkAfterLLM (ext : Ext) (d : Detector) (msg userID : String) :
    Bool × List CheckResult :=
  match d.openaiChecker with
  | some oc =>
    if llmGate d (isSpamDetected (baseResults ext d msg userID)) then
      ((oc msg).1, baseResults ext d msg userID ++ [(oc msg).2])
    else
      (isSpamDetected (baseResults ext d msg userID), baseResults ext d msg userID)
  | none =>
    (isSpamDetected (baseResults ext d msg userID), baseResults ext d msg userID)

/-- The `d.approvedUsers[userID]++` step of `Detector.Check`. -/
def bumpApproved (d : Detector) (userID : String) : Detector :=
  { d with approvedUsers :=
      Function.update d.approvedUsers userID (d.approvedUsers userID + 1) }

/-- `Detector.Check` of `detector.go`: returns the verdict, the check
results, and the detector state after the call (the Go method mutates
`approvedUsers` in place). -/
noncomputable def Check (ext : Ext) (d : Detector) (msg userID : String) :
    Bool × List CheckResult × Detector :=
  if d.FirstMessageOnly = true ∧ d.approvedUsers userID > d.FirstMessagesCount then
    (false, [preApprovedResult], d)
  else if (msg.length : Int) < d.MinMsgLen then
    (isSpamDetected (stopPart ext d msg ++ emojiPart ext d msg ++ [lengthResult]),
      stopPart ext d msg ++ emojiPart ext d msg ++ [lengthResult], d)
  else if (checkAfterLLM ext d msg userID).1 then
    (true, (checkAfterLLM ext d msg userID).2, d)
  else if d.FirstMessageOnly = true ∨ d.FirstMessagesCount > 0 then
    (false, (checkAfterLLM ext d msg userID).2, bumpApproved d userID)
  else (false, (checkAfterLLM ext d msg userID).2, d)

/-- `Detector.Reset` of `detector.go`. -/
def Reset (d : Detector) : Detector :=
  { d with
    tokenizedSpam := []
    excludedTokens := []
    classifier := d.classifier.reset
    approvedUsers := fun _ => 0
    stopWords := [] }

/-- `Detector.AddApprovedUsers` of `detector.go`: set each id's count to
`FirstMessagesCount + 1`. -/
def AddApprovedUsers (d : Detector) (ids : List String) : Detector :=
  ids.foldl
    (fun acc id =>
      { acc with approvedUsers :=
          Function.update acc.approvedUsers id (acc.FirstMessagesCount + 1) })
    d

/-- `Detector.RemoveApprovedUsers` of `detector.go`: deleting an entry
makes subsequent map reads yield `0` again. -/
def RemoveApprovedUsers (d : Detector) (ids : List String) : Detector :=
  ids.foldl
    (fun acc id =>
      { acc with approvedUsers := Function.update acc.approvedUsers id 0 })
    d

/-- `Detector.LoadSamples` of `detector.go`: reset spam samples,
excluded tokens and classifier; load excluded tokens, then spam samples
(kept tokenized and turned into documents), then ham samples; learn the
batch; always a `nil` error. -/
def LoadSamples (ext : Ext) (d : Detector) (exclReader : Reader)
    (spamReaders hamReaders : List Reader) : Detector × LoadResult × Option String :=
  let excl := (tokenChan [exclReader]).map toLowerS
  let spamTokens := tokenChan spamReaders
  let tokSpam := spamTokens.map (fun t => tokenize ext excl t)
  let spamDocs := tokSpam.map
    (fun tf => { spamClass := "spam", tokens := tf.map Prod.fst : document })
  let hamTokens := tokenChan hamReaders
  let hamDocs := hamTokens.map
    (fun t => { spamClass := "ham"
                tokens := (tokenize ext excl t).map Prod.fst : document })
  ({ d with
      tokenizedSpam := tokSpam
      excludedTokens := excl
      classifier := (d.classifier.reset).learn (spamDocs ++ hamDocs) },
    { ExcludedTokens := excl.length, SpamSamples := spamTokens.length
      HamSamples := hamTokens.length, StopWords := 0 },
    none)

/-- `Detector.LoadStopWords` of `detector.go`: replace the stop words
with the lowercased token stream; always a `nil` error. -/
def LoadStopWords (d : Detector) (readers : List Reader) :
    Detector × LoadResult × Option String :=
  let sw := (tokenChan readers).map toLowerS
  ({ d with stopWords := sw },
    { ExcludedTokens := 0, SpamSamples := 0, HamSamples := 0
      StopWords := sw.length },
    none)

/-- The documents `Detector.updateSample` builds from a message on a
successful append: the message goes through the sample-stream parser
(`tokenChan`) and each yielded token becomes one document of the given
class with its distinct tokens. -/
def updateDocs (ext : Ext) (d : Detector) (msg sc : String) : List document :=
  (tokenChan [{ content := msg, readErr := none }]).map
    (fun token =>
      { spamClass := sc
        tokens := (tokenize ext d.excludedTokens token).map Prod.fst : document })

/-- The tail of `Detector.updateSample` after `upd.Append(msg)`: a
failing append returns the wrapped error and leaves the state untouched;
on success the classifier learns the documents of the message. -/
def updateSampleAppend (ext : Ext) (d : Detector) (msg sc : String) :
    Option String → Detector × Option String
  | some e => (d, some ("can't update " ++ sc ++ " samples: " ++ e))
  | none =>
    ({ d with classifier := d.classifier.learn (updateDocs ext d msg sc) }, none)

/-- `Detector.updateSample` of `detector.go`: a no-op returning `nil`
without an updater, otherwise the `Append` outcome decides. -/
def updateSample (ext : Ext) (d : Detector) (msg : String)
    (upd : Option SampleUpdater) (sc : String) : Detector × Option String :=
  match upd with
  | none => (d, none)
  | some u => updateSampleAppend ext d msg sc (u.append msg)

/-- `Detector.UpdateSpam` of `detector.go`. -/
def UpdateSpam (ext : Ext) (d : Detector) (msg : String) : Detector × Option String :=
  updateSample ext d msg d.spamSamplesUpd "spam"

/-- `Detector.UpdateHam` of `detector.go`. -/
def UpdateHam (ext : Ext) (d : Detector) (msg : String) : Detector × Option String :=
  updateSample ext d msg d.hamSamplesUpd "ham"

/-! ### Lemmas about the map embedding and the cosine similarity -/

theorem mapGet_eq_zero_of_not_mem {m : TokenFreq} {k : String}
    (h : k ∉ keysList m) : mapGet m k = 0 := by
  induction m with
  | nil => rfl
  | cons p t ih =>
    simp only [keysList, List.map_cons, List.mem_cons, not_or] at h
    simp only [mapGet]
    rw [if_neg (fun hk => h.1 hk.symm)]
    exact ih (by simpa [keysList] using h.2)

theorem list_sum_eq_finset_sum (m : TokenFreq) (h : (keysList m).Nodup)
    (f : String → Int → Int) :
    (m.map (fun p => f p.1 p.2)).sum =
      ∑ k ∈ (keysList m).toFinset, f k (mapGet m k) := by
  induction m with
  | nil => simp [keysList]
  | cons p t ih =>
    obtain ⟨k, v⟩ := p
    have hkeys : keysList ((k, v) :: t) = k :: keysList t := by
      simp [keysList]
    rw [hkeys] at h
    have hk : k ∉ keysList t := (List.nodup_cons.mp h).1
    have ht : (keysList t).Nodup := (List.nodup_cons.mp h).2
    have hkF : k ∉ (keysList t).toFinset := by
      simpa using hk
    simp only [List.map_cons, List.sum_cons, hkeys, List.toFinset_cons]
    rw [Finset.sum_insert hkF, ih ht]
    have h1 : mapGet ((k, v) :: t) k = v := by
      simp [mapGet]
    have h2 : ∀ k' ∈ (keysList t).toFinset,
        f k' (mapGet ((k, v) :: t) k') = f k' (mapGet t k') := by
      intro k' hk'
      have : k ≠ k' := by
        intro he
        exact hk (by simpa [he] using hk')
      simp [mapGet, this]
    rw [h1, Finset.sum_congr rfl h2]

theorem dotP_eq_finset_sum (a b : TokenFreq) (ha : WFMap a) :
    dotP a b = ∑ k ∈ (keysList a).toFinset, mapGet a k * mapGet b k := by
  unfold dotP
  exact list_sum_eq_finset_sum a ha (fun k v => v * mapGet b k)

theorem dotP_eq_union_sum (a b : TokenFreq) (ha : WFMap a) :
    dotP a b =
      ∑ k ∈ (keysList a).toFinset ∪ (keysList b).toFinset,
        mapGet a k * mapGet b k := by
  rw [dotP_eq_finset_sum a b ha]
  refine Finset.sum_subset Finset.subset_union_left ?_
  intro k _ hka
  have : mapGet a k = 0 := mapGet_eq_zero_of_not_mem (by simpa using hka)
  simp [this]

theorem dotP_comm (a b : TokenFreq) (ha : WFMap a) (hb : WFMap b) :
    dotP a b = dotP b a := by
  rw [dotP_eq_union_sum a b ha, dotP_eq_union_sum b a hb, Finset.union_comm]
  exact Finset.sum_congr rfl (fun k _ => mul_comm _ _)

theorem dotP_self (a : TokenFreq) (ha : WFMap a) : dotP a a = normSq a := by
  rw [dotP_eq_finset_sum a a ha]
  unfold normSq
  rw [list_sum_eq_finset_sum a ha (fun _ v => v * v)]

theorem normSq_nonneg (a : TokenFreq) : 0 ≤ normSq a := by
  unfold normSq
  refine List.sum_nonneg ?_
  intro x hx
  simp only [List.mem_map] at hx
  obtain ⟨p, _, rfl⟩ := hx
  exact mul_self_nonneg p.2

theorem normSq_pos (a : TokenFreq) (hne : a ≠ []) (hpos : ∀ p ∈ a, 0 < p.2) :
    0 < normSq a := by
  match a, hne with
  | p :: t, _ =>
    unfold normSq
    simp only [List.map_cons, List.sum_cons]
    have h1 : 0 < p.2 * p.2 := mul_pos (hpos p (by simp)) (hpos p (by simp))
    have h2 : 0 ≤ (t.map (fun p => p.2 * p.2)).sum := by
      refine List.sum_nonneg ?_
      intro x hx
      simp only [List.mem_map] at hx
      obtain ⟨q, _, rfl⟩ := hx
      exact mul_self_nonneg q.2
    linarith

theorem cosineSimilarity_self (a : TokenFreq) (ha : WFMap a) (hne : a ≠ [])
    (hpos : ∀ p ∈ a, 0 < p.2) : cosineSimilarity a a = 1 := by
  have hn : 0 < normSq a := normSq_pos a hne hpos
  have hlen : ¬(a.length = 0 ∨ a.length = 0) := by
    simp [List.length_eq_zero, hne]
  have hnz : ¬(normSq a = 0 ∨ normSq a = 0) := by
    simp [hn.ne']
  unfold cosineSimilarity
  rw [if_neg hlen, if_neg hnz, dotP_self a ha,
    Real.mul_self_sqrt (by exact_mod_cast hn.le)]
  exact div_self (by exact_mod_cast hn.ne')

theorem cosineSimilarity_comm (a b : TokenFreq) (ha : WFMap a) (hb : WFMap b) :
    cosineSimilarity a b = cosineSimilarity b a := by
  unfold cosineSimilarity
  by_cases h1 : a.length = 0 ∨ b.length = 0
  · rw [if_pos h1, if_pos (Or.symm h1)]
  · rw [if_neg h1, if_neg (fun h => h1 (Or.symm h))]
    by_cases h2 : normSq a = 0 ∨ normSq b = 0
    · rw [if_pos h2, if_pos (Or.symm h2)]
    · rw [if_neg h2, if_neg (fun h => h2 (Or.symm h))]
      rw [dotP_comm a b ha hb, mul_comm]

theorem cosineSimilarity_empty_right (a : TokenFreq) :
    cosineSimilarity a [] = 0 := by
  unfold cosineSimilarity
  rw [if_pos]
  exact Or.inr rfl

theorem cosineSimilarity_empty_left (b : TokenFreq) :
    cosineSimilarity [] b = 0 := by
  unfold cosineSimilarity
  rw [if_pos]
  exact Or.inl rfl

/-- C9: the cosine-similarity function satisfies cos(a,a) = 1 for every
non-empty token-frequency map a (distinct keys, positive counts, as every
Go map produced by the tokenizer has), cos(a,b) = cos(b,a) for all maps,
and cos with an empty map on either side is 0. -/
theorem cosine_similarity_laws :
    (∀ a : TokenFreq, WFMap a → a ≠ [] → (∀ p ∈ a, 0 < p.2) →
      cosineSimilarity a a = 1) ∧
    (∀ a b : TokenFreq, WFMap a → WFMap b →
      cosineSimilarity a b = cosineSimilarity b a) ∧
    (∀ a : TokenFreq, cosineSimilarity a [] = 0 ∧ cosineSimilarity [] a = 0) := by
  refine ⟨cosineSimilarity_self, cosineSimilarity_comm, ?_⟩
  intro a
  exact ⟨cosineSimilarity_empty_right a, cosineSimilarity_empty_left a⟩

/-- Witness for C9 at a concrete map. -/
theorem cosine_similarity_laws_witness :
    cosineSimilarity [("abc", 2)] [("abc", 2)] = 1 := by
  refine cosine_similarity_laws.1 [("abc", 2)] ?_ ?_ ?_
  · show (keysList [("abc", 2)]).Nodup
    simp [keysList]
  · simp
  · intro p hp
    simp only [List.mem_singleton] at hp
    rw [hp]
    norm_num

/-! ### Helper lemmas about the check pipeline -/

theorem check_shortcut_eval (ext : Ext) (d : Detector) (msg uid : String)
    (h : d.FirstMessageOnly = true ∧ d.approvedUsers uid > d.FirstMessagesCount) :
    Check ext d msg uid = (false, [preApprovedResult], d) := by
  unfold Check
  rw [if_pos h]

theorem check_short_eval (ext : Ext) (d : Detector) (msg uid : String)
    (h1 : ¬(d.FirstMessageOnly = true ∧ d.approvedUsers uid > d.FirstMessagesCount))
    (h2 : (msg.length : Int) < d.MinMsgLen) :
    Check ext d msg uid =
      (isSpamDetected (stopPart ext d msg ++ emojiPart ext d msg ++ [lengthResult]),
        stopPart ext d msg ++ emojiPart ext d msg ++ [lengthResult], d) := by
  unfold Check
  rw [if_neg h1, if_pos h2]

theorem check_long_proj (ext : Ext) (d : Detector) (msg uid : String)
    (h1 : ¬(d.FirstMessageOnly = true ∧ d.approvedUsers uid > d.FirstMessagesCount))
    (h2 : ¬((msg.length : Int) < d.MinMsgLen)) :
    (Check ext d msg uid).1 = (checkAfterLLM ext d msg uid).1 ∧
    (Check ext d msg uid).2.1 = (checkAfterLLM ext d msg uid).2 := by
  unfold Check
  rw [if_neg h1, if_neg h2]
  cases hA : (checkAfterLLM ext d msg uid).1 with
  | false =>
    by_cases h4 : d.FirstMessageOnly = true ∨ d.FirstMessagesCount > 0
    · rw [if_pos h4]
      exact ⟨rfl, rfl⟩
    · rw [if_neg h4]
      exact ⟨rfl, rfl⟩
  | true => exact ⟨rfl, rfl⟩

theorem check_long_state (ext : Ext) (d : Detector) (msg uid : String)
    (h1 : ¬(d.FirstMessageOnly = true ∧ d.approvedUsers uid > d.FirstMessagesCount))
    (h2 : ¬((msg.length : Int) < d.MinMsgLen)) :
    (Check ext d msg uid).2.2 =
      if (checkAfterLLM ext d msg uid).1 = false ∧
          (d.FirstMessageOnly = true ∨ d.FirstMessagesCount > 0) then
        bumpApproved d uid
      else d := by
  unfold Check
  rw [if_neg h1, if_neg h2]
  cases hA : (checkAfterLLM ext d msg uid).1 with
  | false =>
    by_cases h4 : d.FirstMessageOnly = true ∨ d.FirstMessagesCount > 0
    · rw [if_pos h4,
        if_pos (show false = false ∧
          (d.FirstMessageOnly = true ∨ d.FirstMessagesCount > 0) from ⟨rfl, h4⟩)]
      rfl
    · rw [if_neg h4,
        if_neg (show ¬(false = false ∧
            (d.FirstMessageOnly = true ∨ d.FirstMessagesCount > 0)) from
          fun hh => h4 hh.2)]
      rfl
  | true =>
    rw [if_neg (show ¬(true = false ∧
        (d.FirstMessageOnly = true ∨ d.FirstMessagesCount > 0)) from
      fun hh => nomatch hh.1)]
    rfl

theorem checkAfterLLM_none (ext : Ext) (d : Detector) (msg uid : String)
    (h : d.openaiChecker = none) :
    checkAfterLLM ext d msg uid =
      (isSpamDetected (baseResults ext d msg uid), baseResults ext d msg uid) := by
  unfold checkAfterLLM
  rw [h]

theorem checkAfterLLM_some_gate (ext : Ext) (d : Detector) (msg uid : String)
    (oc : String → Bool × CheckResult) (h : d.openaiChecker = some oc)
    (hg : llmGate d (isSpamDetected (baseResults ext d msg uid))) :
    checkAfterLLM ext d msg uid =
      ((oc msg).1, baseResults ext d msg uid ++ [(oc msg).2]) := by
  unfold checkAfterLLM
  rw [h]
  exact if_pos hg

theorem checkAfterLLM_some_nogate (ext : Ext) (d : Detector) (msg uid : String)
    (oc : String → Bool × CheckResult) (h : d.openaiChecker = some oc)
    (hg : ¬llmGate d (isSpamDetected (baseResults ext d msg uid))) :
    checkAfterLLM ext d msg uid =
      (isSpamDetected (baseResults ext d msg uid), baseResults ext d msg uid) := by
  unfold checkAfterLLM
  rw [h]
  exact if_neg hg

theorem isStopWord_Name (ext : Ext) (d : Detector) (msg : String) :
    (isStopWord ext d msg).Name = "stopword" := by
  unfold isStopWord
  split <;> rfl

theorem isCasSpam_Name (d : Detector) (uid : String) :
    (isCasSpam d uid).Name = "cas" := by
  unfold isCasSpam
  split
  · rfl
  · split <;> first | rfl | (split <;> rfl)

theorem mem_stopPart_name (ext : Ext) (d : Detector) (msg : String)
    (r : CheckResult) (hr : r ∈ stopPart ext d msg) : r.Name = "stopword" := by
  unfold stopPart at hr
  split at hr
  · simp only [List.mem_singleton] at hr
    rw [hr]
    exact isStopWord_Name ext d msg
  · exact absurd hr (List.not_mem_nil r)

theorem mem_emojiPart_name (ext : Ext) (d : Detector) (msg : String)
    (r : CheckResult) (hr : r ∈ emojiPart ext d msg) : r.Name = "emoji" := by
  unfold emojiPart at hr
  split at hr
  · simp only [List.mem_singleton] at hr
    rw [hr]
    rfl
  · exact absurd hr (List.not_mem_nil r)

theorem mem_casPart_name (d : Detector) (uid : String)
    (r : CheckResult) (hr : r ∈ casPart d uid) : r.Name = "cas" := by
  unfold casPart at hr
  split at hr
  · simp only [List.mem_singleton] at hr
    rw [hr]
    exact isCasSpam_Name d uid
  · exact absurd hr (List.not_mem_nil r)

/-! ### Concrete example states used by the witnesses and counterexamples -/

/-- A concrete choice for the abstract emoji helpers. -/
def extEx : Ext :=
  { cleanEmoji := fun s => s, countEmoji := fun _ => 0 }

/-- A small concrete detector: first-message mode with a window of `0`,
a minimum message length of `5`, and every optional check disabled. -/
def dBase : Detector :=
  { SimilarityThreshold := 0
    MinMsgLen := 5
    MaxAllowedEmoji := -1
    CasAPI := ""
    FirstMessageOnly := true
    FirstMessagesCount := 0
    MinSpamProbability := 0
    OpenAIVeto := false
    casClient := fun _ => .ok false ""
    classifier := newClassifier
    openaiChecker := none
    tokenizedSpam := []
    approvedUsers := fun _ => 0
    stopWords := []
    excludedTokens := []
    spamSamplesUpd := none
    hamSamplesUpd := none }

/-- `dBase` with the one user `"u1"` already past the window. -/
def dPre : Detector :=
  { dBase with approvedUsers := fun _ => 1 }

/-- An openAI checker stub that always answers spam. -/
def ocSpam : String → Bool × CheckResult :=
  fun _ => (true, { Name := "openai", Spam := true, Details := "spam" })

/-- `dBase` with an openAI checker attached and the length gate off. -/
def dLLM : Detector :=
  { dBase with openaiChecker := some ocSpam, MinMsgLen := 0 }

/-! ### Claim theorems about the check pipeline -/

/-- C1 (amended): when `FirstMessageOnly` (or `FirstMessagesCount > 0`)
is set, a ham verdict of the full pipeline — one that neither the
pre-approval shortcut nor the length gate returned early — increments
`approvedUsers[u]` by exactly 1 and changes no other entry; a spam
verdict, a shortcut return, a length-gate return, and any call without
the first-message window leave the map (indeed the whole state)
unchanged. -/
theorem approved_counter_discipline (ext : Ext) (d : Detector) (msg uid : String) :
    ((Check ext d msg uid).1 = true → (Check ext d msg uid).2.2 = d)
  ∧ (d.FirstMessageOnly = true ∧ d.approvedUsers uid > d.FirstMessagesCount →
      (Check ext d msg uid).2.2 = d)
  ∧ ((msg.length : Int) < d.MinMsgLen → (Check ext d msg uid).2.2 = d)
  ∧ (¬(d.FirstMessageOnly = true ∧ d.approvedUsers uid > d.FirstMessagesCount) →
     ¬((msg.length : Int) < d.MinMsgLen) →
     (Check ext d msg uid).1 = false →
     (d.FirstMessageOnly = true ∨ d.FirstMessagesCount > 0) →
       (Check ext d msg uid).2.2.approvedUsers uid = d.approvedUsers uid + 1 ∧
       ∀ v, v ≠ uid → (Check ext d msg uid).2.2.approvedUsers v = d.approvedUsers v)
  ∧ (¬(d.FirstMessageOnly = true ∨ d.FirstMessagesCount > 0) →
      (Check ext d msg uid).2.2 = d) := by
  by_cases h1 : d.FirstMessageOnly = true ∧ d.approvedUsers uid > d.FirstMessagesCount
  · rw [check_shortcut_eval ext d msg uid h1]
    exact ⟨fun _ => rfl, fun _ => rfl, fun _ => rfl, fun hns => absurd h1 hns,
      fun _ => rfl⟩
  · by_cases h2 : (msg.length : Int) < d.MinMsgLen
    · rw [check_short_eval ext d msg uid h1 h2]
      exact ⟨fun _ => rfl, fun hs => absurd hs h1, fun _ => rfl,
        fun _ hns2 => absurd h2 hns2, fun _ => rfl⟩
    · have hst := check_long_state ext d msg uid h1 h2
      have hpr := check_long_proj ext d msg uid h1 h2
      refine ⟨?_, fun hs => absurd hs h1, fun hs => absurd hs h2, ?_, ?_⟩
      · intro hspam
        rw [hst, if_neg]
        intro hh
        rw [hpr.1] at hspam
        rw [hspam] at hh
        exact nomatch hh.1
      · intro _ _ hham h4
        rw [hpr.1] at hham
        rw [hst, if_pos ⟨hham, h4⟩]
        constructor
        · simp [bumpApproved]
        · intro v hv
          simp [bumpApproved, Function.update_noteq hv]
      · intro h4
        rw [hst, if_neg (fun hh => h4 hh.2)]

/-- Witness for C1 at a concrete input: a short message leaves the
state unchanged. -/
theorem approved_counter_discipline_witness :
    (Check extEx dBase "hi" "u1").2.2 = dBase :=
  (approved_counter_discipline extEx dBase "hi" "u1").2.2.1 (by decide)

/-- Counterexample for C1 as stated: a ham verdict taken through the
length gate does not increment `approvedUsers[u]`. -/
theorem approved_counter_discipline_cex :
    (Check extEx dBase "hi" "u1").1 = false ∧
    dBase.FirstMessageOnly = true ∧
    ¬((Check extEx dBase "hi" "u1").2.2.approvedUsers "u1" =
        dBase.approvedUsers "u1" + 1) := by
  have hc : Check extEx dBase "hi" "u1" = (false, [lengthResult], dBase) := by
    rw [check_short_eval extEx dBase "hi" "u1" (by decide) (by decide)]
    rfl
  rw [hc]
  exact ⟨rfl, rfl, by decide⟩

/-- C3: with `FirstMessageOnly` set (as it is in particular whenever
`FirstMessagesCount > 0` forces it), after `AddApprovedUsers(u)` the
next `Check(msg, u)` returns ham with the single result
`pre-approved`, running no other check and leaving the state alone. -/
theorem check_pre_approved (ext : Ext) (d : Detector) (msg uid : String)
    (h : d.FirstMessageOnly = true) :
    Check ext (AddApprovedUsers d [uid]) msg uid =
      (false, [preApprovedResult], AddApprovedUsers d [uid]) := by
  have hfold : AddApprovedUsers d [uid] =
      { d with approvedUsers :=
          Function.update d.approvedUsers uid (d.FirstMessagesCount + 1) } := rfl
  apply check_shortcut_eval
  constructor
  · rw [hfold]
    exact h
  · rw [hfold]
    simp only [Function.update_same]
    omega

/-- Witness for C3 at a concrete input. -/
theorem check_pre_approved_witness :
    Check extEx (AddApprovedUsers dBase ["u1"]) "hello there" "u1" =
      (false, [preApprovedResult], AddApprovedUsers dBase ["u1"]) :=
  check_pre_approved extEx dBase "hello there" "u1" rfl

/-- C4 (amended): in an invocation not taken over by the pre-approval
shortcut, a message shorter than `MinMsgLen` makes `Check` return the
stop-word and emoji results followed by the fixed `message length`
result — no similarity, classifier, reputation or LLM result and no
state change — with the verdict true iff one of the earlier results is
spam. -/
theorem length_gate (ext : Ext) (d : Detector) (msg uid : String)
    (h1 : ¬(d.FirstMessageOnly = true ∧ d.approvedUsers uid > d.FirstMessagesCount))
    (h2 : (msg.length : Int) < d.MinMsgLen) :
    Check ext d msg uid =
      (isSpamDetected (stopPart ext d msg ++ emojiPart ext d msg),
        stopPart ext d msg ++ emojiPart ext d msg ++ [lengthResult], d) := by
  rw [check_short_eval ext d msg uid h1 h2]
  have hlen : isSpamDetected
      (stopPart ext d msg ++ emojiPart ext d msg ++ [lengthResult]) =
      isSpamDetected (stopPart ext d msg ++ emojiPart ext d msg) := by
    unfold isSpamDetected lengthResult
    simp
  rw [hlen]

/-- Witness for C4 at a concrete input. -/
theorem length_gate_witness :
    Check extEx dBase "hi" "u1" =
      (isSpamDetected (stopPart extEx dBase "hi" ++ emojiPart extEx dBase "hi"),
        stopPart extEx dBase "hi" ++ emojiPart extEx dBase "hi" ++ [lengthResult],
        dBase) :=
  length_gate extEx dBase "hi" "u1" (by decide) (by decide)

/-- Counterexample for C4 as stated: for a pre-approved user the length
result is not appended even though the message is shorter than
`MinMsgLen`. -/
theorem length_gate_cex :
    (("hi".length : Int) < dPre.MinMsgLen) ∧
    lengthResult ∉ (Check extEx dPre "hi" "u1").2.1 := by
  constructor
  · decide
  · have hc : Check extEx dPre "hi" "u1" = (false, [preApprovedResult], dPre) :=
      check_shortcut_eval extEx dPre "hi" "u1" (by decide)
    rw [hc]
    decide

/-- C5: in an invocation reaching the aggregation step, the LLM checker
is consulted iff one is attached, the first-message window is
configured, and the accumulated verdict with `OpenAIVeto` selects it
(`llmGate`); when consulted its verdict replaces the accumulated one and
its result is appended, otherwise verdict and results are exactly the
accumulated ones. -/
theorem llm_gating (ext : Ext) (d : Detector) (msg uid : String)
    (h1 : ¬(d.FirstMessageOnly = true ∧ d.approvedUsers uid > d.FirstMessagesCount))
    (h2 : d.MinMsgLen ≤ (msg.length : Int)) :
    (∀ oc, d.openaiChecker = some oc →
      (llmGate d (isSpamDetected (baseResults ext d msg uid)) →
        (Check ext d msg uid).1 = (oc msg).1 ∧
        (Check ext d msg uid).2.1 = baseResults ext d msg uid ++ [(oc msg).2]) ∧
      (¬llmGate d (isSpamDetected (baseResults ext d msg uid)) →
        (Check ext d msg uid).1 = isSpamDetected (baseResults ext d msg uid) ∧
        (Check ext d msg uid).2.1 = baseResults ext d msg uid)) ∧
    (d.openaiChecker = none →
      (Check ext d msg uid).1 = isSpamDetected (baseResults ext d msg uid) ∧
      (Check ext d msg uid).2.1 = baseResults ext d msg uid) := by
  have h2' : ¬((msg.length : Int) < d.MinMsgLen) := not_lt.mpr h2
  have hpr := check_long_proj ext d msg uid h1 h2'
  constructor
  · intro oc hoc
    constructor
    · intro hg
      have hA := checkAfterLLM_some_gate ext d msg uid oc hoc hg
      rw [hpr.1, hpr.2, hA]
      exact ⟨rfl, rfl⟩
    · intro hg
      have hA := checkAfterLLM_some_nogate ext d msg uid oc hoc hg
      rw [hpr.1, hpr.2, hA]
      exact ⟨rfl, rfl⟩
  · intro hnone
    have hA := checkAfterLLM_none ext d msg uid hnone
    rw [hpr.1, hpr.2, hA]
    exact ⟨rfl, rfl⟩

/-- Witness for C5 at a concrete input (no checker attached). -/
theorem llm_gating_witness :
    (Check extEx dBase "hello there" "u1").1 =
      isSpamDetected (baseResults extEx dBase "hello there" "u1") ∧
    (Check extEx dBase "hello there" "u1").2.1 =
      baseResults extEx dBase "hello there" "u1" :=
  (llm_gating extEx dBase "hello there" "u1" (by decide) (by decide)).2 rfl

/-- C2 (amended): immediately after `Reset` (with a configuration whose
`FirstMessagesCount` is non-negative), every result `Check` returns comes
from the stop-word, emoji, length-gate or reputation check, or — when an
LLM client is attached and its gate fires — is the LLM's result; in
particular no similarity or classifier result appears. -/
theorem check_after_reset (ext : Ext) (d : Detector) (msg uid : String)
    (hcnt : 0 ≤ d.FirstMessagesCount) :
    ∀ r ∈ (Check ext (Reset d) msg uid).2.1,
      r.Name = "stopword" ∨ r.Name = "emoji" ∨ r.Name = "message length" ∨
      r.Name = "cas" ∨ ∃ oc, d.openaiChecker = some oc ∧ r = (oc msg).2 := by
  intro r hr
  have hshort : ¬((Reset d).FirstMessageOnly = true ∧
      (Reset d).approvedUsers uid > (Reset d).FirstMessagesCount) := by
    intro h
    have h2 : (0 : Int) > d.FirstMessagesCount := h.2
    omega
  have hstop : stopPart ext (Reset d) msg = [] := rfl
  have hsim : simPart ext (Reset d) msg = [] := by
    unfold simPart
    rw [if_neg]
    intro hh
    exact absurd hh.2 (lt_irrefl 0)
  have hclass : classPart ext (Reset d) msg = [] := rfl
  by_cases h2 : (msg.length : Int) < (Reset d).MinMsgLen
  · rw [check_short_eval ext (Reset d) msg uid hshort h2] at hr
    rw [hstop] at hr
    simp only [List.nil_append, List.mem_append, List.mem_singleton] at hr
    rcases hr with hr | hr
    · exact Or.inr (Or.inl (mem_emojiPart_name ext (Reset d) msg r hr))
    · rw [hr]
      exact Or.inr (Or.inr (Or.inl rfl))
  · have hpr := check_long_proj ext (Reset d) msg uid hshort h2
    have hbase : baseResults ext (Reset d) msg uid =
        emojiPart ext (Reset d) msg ++ casPart (Reset d) uid := by
      unfold baseResults
      rw [hstop, hsim, hclass]
      simp
    cases hoc : (Reset d).openaiChecker with
    | none =>
      rw [hpr.2, checkAfterLLM_none ext (Reset d) msg uid hoc, hbase] at hr
      rcases List.mem_append.mp hr with hr | hr
      · exact Or.inr (Or.inl (mem_emojiPart_name ext (Reset d) msg r hr))
      · exact Or.inr (Or.inr (Or.inr (Or.inl (mem_casPart_name (Reset d) uid r hr))))
    | some oc =>
      by_cases hg : llmGate (Reset d)
          (isSpamDetected (baseResults ext (Reset d) msg uid))
      · rw [hpr.2, checkAfterLLM_some_gate ext (Reset d) msg uid oc hoc hg,
          hbase] at hr
        rcases List.mem_append.mp hr with hr | hr
        · rcases List.mem_append.mp hr with hr | hr
          · exact Or.inr (Or.inl (mem_emojiPart_name ext (Reset d) msg r hr))
          · exact Or.inr (Or.inr (Or.inr (Or.inl
              (mem_casPart_name (Reset d) uid r hr))))
        · rw [List.mem_singleton.mp hr]
          exact Or.inr (Or.inr (Or.inr (Or.inr ⟨oc, hoc, rfl⟩)))
      · rw [hpr.2, checkAfterLLM_some_nogate ext (Reset d) msg uid oc hoc hg,
          hbase] at hr
        rcases List.mem_append.mp hr with hr | hr
        · exact Or.inr (Or.inl (mem_emojiPart_name ext (Reset d) msg r hr))
        · exact Or.inr (Or.inr (Or.inr (Or.inl (mem_casPart_name (Reset d) uid r hr))))

/-- Witness for C2 at a concrete input: the length result of a check
right after `Reset`. -/
theorem check_after_reset_witness :
    lengthResult.Name = "stopword" ∨ lengthResult.Name = "emoji" ∨
    lengthResult.Name = "message length" ∨ lengthResult.Name = "cas" ∨
    ∃ oc, dBase.openaiChecker = some oc ∧ lengthResult = (oc "hi").2 := by
  refine check_after_reset extEx dBase "hi" "u1" (by decide) lengthResult ?_
  have hc : Check extEx (Reset dBase) "hi" "u1" =
      (false, [lengthResult], Reset dBase) := by
    rw [check_short_eval extEx (Reset dBase) "hi" "u1" (by decide) (by decide)]
    rfl
  rw [hc]
  exact List.mem_singleton.mpr rfl

/-- Counterexample for C2 as stated: with an LLM client attached, a
check right after `Reset` can return a result list consisting of the
LLM's result, which none of the four listed corpus-free checks
produced. -/
theorem check_after_reset_cex :
    (Check extEx (Reset dLLM) "hello" "u1").2.1 =
      [{ Name := "openai", Spam := true, Details := "spam" }] := by
  have hsim : simPart extEx (Reset dLLM) "hello" = [] := by
    unfold simPart
    rw [if_neg]
    intro hh
    exact absurd hh.2 (lt_irrefl 0)
  have hbase : baseResults extEx (Reset dLLM) "hello" "u1" = [] := by
    unfold baseResults
    rw [hsim]
    rfl
  have hg : llmGate (Reset dLLM)
      (isSpamDetected (baseResults extEx (Reset dLLM) "hello" "u1")) := by
    rw [hbase]
    unfold llmGate
    exact ⟨Or.inl rfl, Or.inl ⟨rfl, rfl⟩⟩
  have hA := checkAfterLLM_some_gate extEx (Reset dLLM) "hello" "u1" ocSpam rfl hg
  have hpr := check_long_proj extEx (Reset dLLM) "hello" "u1" (by decide) (by decide)
  rw [hpr.2, hA, hbase]
  rfl

/-- C6: the reputation check is total and never spam on failure: an id
that does not parse as a signed 64-bit integer gives ham with the
"invalid user id" detail; request-construction, transport and decoding
failures give ham; on a decoded response the verdict is exactly `ok`,
the description is lowercased and stripped of one trailing period, and
an empty ham description becomes "not found". -/
theorem cas_check_spec (d : Detector) (msgID : String) :
    (isInt64String msgID = false →
      isCasSpam d msgID =
        { Name := "cas", Spam := false
          Details := "invalid user id \"" ++ msgID ++ "\"" })
  ∧ (∀ e, d.casClient (casURL d msgID) = .newRequestError e →
      (isCasSpam d msgID).Spam = false)
  ∧ (∀ e, d.casClient (casURL d msgID) = .doError e →
      (isCasSpam d msgID).Spam = false)
  ∧ (∀ e, d.casClient (casURL d msgID) = .decodeError e →
      (isCasSpam d msgID).Spam = false)
  ∧ (∀ okF desc, isInt64String msgID = true →
      d.casClient (casURL d msgID) = .ok okF desc →
      (isCasSpam d msgID).Spam = okF ∧
      (okF = true →
        (isCasSpam d msgID).Details = trimSuffixDot (toLowerS desc)) ∧
      (okF = false →
        (isCasSpam d msgID).Details =
          (if trimSuffixDot (toLowerS desc) = "" then "not found"
            else trimSuffixDot (toLowerS desc)))) := by
  refine ⟨?_, ?_, ?_, ?_, ?_⟩
  · intro hp
    unfold isCasSpam
    rw [if_pos (by rw [hp]; rfl)]
  · intro e he
    cases hp : isInt64String msgID with
    | false =>
      unfold isCasSpam
      rw [if_pos (by rw [hp]; rfl)]
    | true =>
      unfold isCasSpam
      rw [if_neg (by rw [hp]; simp), he]
  · intro e he
    cases hp : isInt64String msgID with
    | false =>
      unfold isCasSpam
      rw [if_pos (by rw [hp]; rfl)]
    | true =>
      unfold isCasSpam
      rw [if_neg (by rw [hp]; simp), he]
  · intro e he
    cases hp : isInt64String msgID with
    | false =>
      unfold isCasSpam
      rw [if_pos (by rw [hp]; rfl)]
    | true =>
      unfold isCasSpam
      rw [if_neg (by rw [hp]; simp), he]
  · intro okF desc hp hok
    unfold isCasSpam
    rw [if_neg (by rw [hp]; simp), hok]
    cases okF with
    | true => exact ⟨rfl, fun _ => rfl, fun hh => absurd hh (by simp)⟩
    | false => exact ⟨rfl, fun hh => absurd hh (by simp), fun _ => rfl⟩

/-- A detector with the CAS check wired to a stub client that reports
every queried id as a known spammer. -/
def dCas : Detector :=
  { dBase with
    CasAPI := "https://api.cas.chat"
    casClient := fun _ => .ok true "Spammer." }

/-- Witness for C6 at concrete inputs: an unparseable id is ham, a
reported id is spam with the normalised description. -/
theorem cas_check_spec_witness :
    (isCasSpam dCas "abc").Spam = false ∧
    (isCasSpam dCas "123").Spam = true ∧
    (isCasSpam dCas "123").Details = "spammer" := by
  refine ⟨?_, ?_, ?_⟩
  · have h := (cas_check_spec dCas "abc").1 (by decide)
    rw [h]
  · have h := ((cas_check_spec dCas "123").2.2.2.2 true "Spammer."
      (by decide) rfl).1
    rw [h]
  · have h := (((cas_check_spec dCas "123").2.2.2.2 true "Spammer."
      (by decide) rfl).2.1) rfl
    rw [h]
    decide

/-- C7: `UpdateSpam`/`UpdateHam` are no-ops returning `nil` when the
corresponding updater is unset; a failing `Append` yields the wrapped
error with the whole state (in particular the classifier) unchanged; the
classifier learns the message's documents exactly on a successful
append. -/
theorem update_sample_spec (ext : Ext) (d : Detector) (msg : String) :
    (d.spamSamplesUpd = none → UpdateSpam ext d msg = (d, none))
  ∧ (d.hamSamplesUpd = none → UpdateHam ext d msg = (d, none))
  ∧ (∀ u e, d.spamSamplesUpd = some u → u.append msg = some e →
      UpdateSpam ext d msg = (d, some ("can't update spam samples: " ++ e)))
  ∧ (∀ u e, d.hamSamplesUpd = some u → u.append msg = some e →
      UpdateHam ext d msg = (d, some ("can't update ham samples: " ++ e)))
  ∧ (∀ u, d.spamSamplesUpd = some u → u.append msg = none →
      UpdateSpam ext d msg =
        ({ d with classifier := d.classifier.learn (updateDocs ext d msg "spam") },
          none))
  ∧ (∀ u, d.hamSamplesUpd = some u → u.append msg = none →
      UpdateHam ext d msg =
        ({ d with classifier := d.classifier.learn (updateDocs ext d msg "ham") },
          none)) := by
  refine ⟨?_, ?_, ?_, ?_, ?_, ?_⟩
  · intro h
    unfold UpdateSpam
    rw [h]
    rfl
  · intro h
    unfold UpdateHam
    rw [h]
    rfl
  · intro u e hu he
    unfold UpdateSpam
    rw [hu]
    have h1 : updateSample ext d msg (some u) "spam" =
        updateSampleAppend ext d msg "spam" (u.append msg) := rfl
    rw [h1, he]
    rfl
  · intro u e hu he
    unfold UpdateHam
    rw [hu]
    have h1 : updateSample ext d msg (some u) "ham" =
        updateSampleAppend ext d msg "ham" (u.append msg) := rfl
    rw [h1, he]
    rfl
  · intro u hu he
    have h0 : UpdateSpam ext d msg =
        updateSampleAppend ext d msg "spam" (u.append msg) := by
      unfold UpdateSpam updateSample
      rw [hu]
    rw [h0, he]
    rfl
  · intro u hu he
    have h0 : UpdateHam ext d msg =
        updateSampleAppend ext d msg "ham" (u.append msg) := by
      unfold UpdateHam updateSample
      rw [hu]
    rw [h0, he]
    rfl

/-- A sample updater whose `Append` always fails. -/
def updErr : SampleUpdater :=
  { append := fun _ => some "disk full" }

/-- `dBase` with a failing spam updater and no ham updater. -/
def dUpdErr : Detector :=
  { dBase with spamSamplesUpd := some updErr }

/-- Witness for C7 at concrete inputs: the wrapped append error, and the
unset-updater no-op. -/
theorem update_sample_spec_witness :
    UpdateSpam extEx dUpdErr "msg" =
      (dUpdErr, some "can't update spam samples: disk full") ∧
    UpdateHam extEx dUpdErr "msg" = (dUpdErr, none) := by
  constructor
  · exact (update_sample_spec extEx dUpdErr "msg").2.2.1 updErr "disk full" rfl rfl
  · exact (update_sample_spec extEx dUpdErr "msg").2.1 rfl

theorem ite_max (sim m : ℝ) : (if sim > m then sim else m) = max m sim := by
  split_ifs with h
  · exact (max_eq_right h.le).symm
  · exact (max_eq_left (not_lt.mp h)).symm

theorem simLoop_all_lt (thr : ℝ) (q : TokenFreq) (samples : List TokenFreq)
    (m : ℝ) (h : ∀ s ∈ samples, cosineSimilarity q s < thr) :
    simLoop thr q samples m =
      (false, (samples.map (cosineSimilarity q)).foldl max m) := by
  induction samples generalizing m with
  | nil => rfl
  | cons s rest ih =>
    have hs : cosineSimilarity q s < thr := h s (List.mem_cons_self s rest)
    simp only [simLoop, List.map_cons, List.foldl_cons]
    rw [if_neg (not_le.mpr hs), ite_max]
    exact ih (max m (cosineSimilarity q s))
      (fun x hx => h x (List.mem_cons_of_mem s hx))

theorem simLoop_hit (thr : ℝ) (q : TokenFreq) (pre : List TokenFreq)
    (s : TokenFreq) (post : List TokenFreq) (m : ℝ)
    (hpre : ∀ p ∈ pre, cosineSimilarity q p < thr)
    (hs : cosineSimilarity q s ≥ thr) :
    simLoop thr q (pre ++ s :: post) m =
      (true, ((pre ++ [s]).map (cosineSimilarity q)).foldl max m) := by
  induction pre generalizing m with
  | nil =>
    simp only [List.nil_append, simLoop, List.map_cons, List.map_nil,
      List.foldl_cons, List.foldl_nil]
    rw [if_pos hs, ite_max]
  | cons p t ih =>
    have hp : cosineSimilarity q p < thr := hpre p (List.mem_cons_self p t)
    simp only [List.cons_append, simLoop, List.map_cons, List.foldl_cons]
    rw [if_neg (not_le.mpr hp), ite_max]
    exact ih (max m (cosineSimilarity q p))
      (fun x hx => hpre x (List.mem_cons_of_mem p hx))

/-- C8: the similarity check is skipped iff the threshold is
non-positive or no spam samples are loaded; when it runs it answers spam
at the first stored sample whose cosine similarity with the tokenized
message reaches the threshold — later samples are never examined, so
truncating them does not change the result — and otherwise ham; in both
cases the details report the running maximum over the examined samples
and the threshold, each to two decimals. -/
theorem similarity_check (ext : Ext) (d : Detector) (msg : String) :
    ((d.SimilarityThreshold ≤ 0 ∨ d.tokenizedSpam = []) →
      simPart ext d msg = [])
  ∧ (d.SimilarityThreshold > 0 → d.tokenizedSpam ≠ [] →
      simPart ext d msg = [isSpamSimilarityHigh ext d msg])
  ∧ (∀ pre s post, d.tokenizedSpam = pre ++ s :: post →
      (∀ p ∈ pre, cosineSimilarity (tokenize ext d.excludedTokens msg) p <
        d.SimilarityThreshold) →
      cosineSimilarity (tokenize ext d.excludedTokens msg) s ≥
        d.SimilarityThreshold →
      isSpamSimilarityHigh ext d msg =
        { Name := "similarity", Spam := true
          Details := fmt2 (((pre ++ [s]).map
              (cosineSimilarity (tokenize ext d.excludedTokens msg))).foldl
                max 0) ++ "/" ++ fmt2 d.SimilarityThreshold } ∧
      isSpamSimilarityHigh ext { d with tokenizedSpam := pre ++ [s] } msg =
        isSpamSimilarityHigh ext d msg)
  ∧ ((∀ s ∈ d.tokenizedSpam,
        cosineSimilarity (tokenize ext d.excludedTokens msg) s <
          d.SimilarityThreshold) →
      isSpamSimilarityHigh ext d msg =
        { Name := "similarity", Spam := false
          Details := fmt2 ((d.tokenizedSpam.map
              (cosineSimilarity (tokenize ext d.excludedTokens msg))).foldl
                max 0) ++ "/" ++ fmt2 d.SimilarityThreshold }) := by
  refine ⟨?_, ?_, ?_, ?_⟩
  · intro h
    unfold simPart
    rw [if_neg]
    intro hh
    rcases h with h | h
    · exact absurd hh.1 (not_lt.mpr h)
    · rw [h] at hh
      exact absurd hh.2 (lt_irrefl 0)
  · intro h1 h2
    unfold simPart
    rw [if_pos ⟨h1, List.length_pos.mpr h2⟩]
  · intro pre s post hsplit hpre hs
    have hl := simLoop_hit d.SimilarityThreshold
      (tokenize ext d.excludedTokens msg) pre s [] 0 hpre hs
    have hr := simLoop_hit d.SimilarityThreshold
      (tokenize ext d.excludedTokens msg) pre s post 0 hpre hs
    constructor
    · unfold isSpamSimilarityHigh
      rw [hsplit, hr]
    · unfold isSpamSimilarityHigh
      rw [show ({ d with tokenizedSpam := pre ++ [s] } : Detector).tokenizedSpam =
          pre ++ s :: [] from rfl,
        show ({ d with tokenizedSpam := pre ++ [s] } : Detector).SimilarityThreshold =
          d.SimilarityThreshold from rfl,
        show ({ d with tokenizedSpam := pre ++ [s] } : Detector).excludedTokens =
          d.excludedTokens from rfl,
        hsplit, hl, hr]
  · intro h
    have hall := simLoop_all_lt d.SimilarityThreshold
      (tokenize ext d.excludedTokens msg) d.tokenizedSpam 0 h
    unfold isSpamSimilarityHigh
    rw [hall]

/-- `dBase` with a positive similarity threshold and one stored spam
sample, and no length gate. -/
noncomputable def dSim : Detector :=
  { dBase with
    SimilarityThreshold := 1
    tokenizedSpam := [[("abc", 2)]]
    MinMsgLen := 0 }

/-- Witness for C8 at a concrete input: a message identical to the one
stored sample triggers the similarity check. -/
theorem similarity_check_witness :
    (isSpamSimilarityHigh extEx dSim "abc abc").Spam = true := by
  have hq : tokenize extEx dSim.excludedTokens "abc abc" = [("abc", 2)] := by
    rfl
  have hcos : cosineSimilarity (tokenize extEx dSim.excludedTokens "abc abc")
      [("abc", 2)] = 1 := by
    rw [hq]
    refine cosineSimilarity_self [("abc", 2)] ?_ (by simp) ?_
    · show (keysList [("abc", 2)]).Nodup
      simp [keysList]
    · intro p hp
      simp only [List.mem_singleton] at hp
      rw [hp]
      norm_num
  have h := ((similarity_check extEx dSim "abc abc").2.2.1 [] [("abc", 2)] []
    rfl (fun p hp => absurd hp (List.not_mem_nil p))
    (by rw [hcos]; exact le_of_eq rfl)).1
  rw [h]

/-- C10: `LoadSamples` leaves the stop-word list and the approved-users
map unchanged, and both `LoadSamples` and `LoadStopWords` always return
a `nil` error, whatever the readers delivered or failed to deliver. -/
theorem load_frame (ext : Ext) (d : Detector) (excl : Reader)
    (spamRs hamRs : List Reader) :
    (LoadSamples ext d excl spamRs hamRs).1.stopWords = d.stopWords ∧
    (LoadSamples ext d excl spamRs hamRs).1.approvedUsers = d.approvedUsers ∧
    (LoadSamples ext d excl spamRs hamRs).2.2 = none ∧
    ∀ rs : List Reader, (LoadStopWords d rs).2.2 = none :=
  ⟨rfl, rfl, rfl, fun _ => rfl⟩

end TgSpam
